import Mathlib

/-!
Verification development for the CodeRabbit shadcn registry core:
the API client (request construction, configuration check, timeout,
error normalization) and the LocalStorage storage adapter, together
with the orchestration hook that composes them.

The definitions below are a shallow embedding of the TypeScript
sources:
  * the API client class (error normalization, timeout handling),
  * the LocalStorage storage adapter (create / updateSuccess /
    updateFailure / get / delete over a list of stored records),
  * the React hook generateReport control flow.
Machine numbers are modelled as Nat (JS timestamps and durations are
non-negative integers in every scenario considered here); fallible
operations return Except String carrying the thrown message.
-/

/-! ## Data model -/

/-- Report status, from the ReportStatus union type. -/
inductive ReportStatus
  | pending
  | completed
  | failed
deriving DecidableEq

/-- One report group, from the ReportResult interface. -/
structure ReportResult where
  group : String
  report : String
deriving DecidableEq

/-- Filter configuration, from the FilterConfig interface.
The parameter/operator enums are modelled as strings. -/
structure FilterConfig where
  parameter : String
  operator : String
  values : List String
deriving DecidableEq

/-- Report generation request, from the ReportGenerateRequest interface.
`from` and `to` are Lean keywords, hence the fields are named `from_` and `to_`.
Optional fields are Options; enum-typed fields are modelled as strings. -/
structure ReportGenerateRequest where
  scheduleRange : Option String := none
  from_ : String
  to_ : String
  prompt : Option String := none
  promptTemplate : Option String := none
  parameters : Option (List FilterConfig) := none
  groupBy : Option String := none
  subgroupBy : Option String := none
  orgId : Option String := none
deriving DecidableEq

/-! ## Error payload shapes and normalization (client.ts) -/

/-- One entry of the `issues` array of the flat error shape. -/
structure FlatIssue where
  message : String
deriving DecidableEq

/-- Flat (standard) error body: `{ message, code, issues? }`.
The unused `code` field is omitted from the embedding because the
source never reads it. -/
structure FlatErrorBody where
  message : String
  issues : Option (List FlatIssue) := none
deriving DecidableEq

/-- The `data` object nested in a tRPC error envelope. -/
structure TRPCData where
  code : String
  httpStatus : Nat
  path : String
deriving DecidableEq

/-- tRPC error envelope contents: `{ error: { message, code, data? } }`. -/
structure TRPCErrorBody where
  message : String
  code : Int
  data : Option TRPCData := none
deriving DecidableEq

/-- A non-2xx JSON body is dispatched on the presence of an `error` key
(`'error' in errorData` in the source): tRPC envelope vs flat shape. -/
inductive ErrorBody
  | trpc (e : TRPCErrorBody)
  | flat (e : FlatErrorBody)
deriving DecidableEq

/-- ERROR_MESSAGES: user-friendly messages for known error codes. -/
def ERROR_MESSAGES : String → Option String
  | "UNAUTHORIZED" =>
    some "CodeRabbit Pro subscription required. Please upgrade your plan at https://coderabbit.ai to use the Reports API."
  | "FORBIDDEN" =>
    some "Access denied. Please check your API key permissions."
  | "TOO_MANY_REQUESTS" =>
    some "Rate limit exceeded. Please wait a few minutes before trying again."
  | "BAD_REQUEST" =>
    some "Invalid request. Please check your report parameters."
  | _ => none

/-- The codes that have an entry in ERROR_MESSAGES. -/
def knownCodes : List String :=
  ["UNAUTHORIZED", "FORBIDDEN", "TOO_MANY_REQUESTS", "BAD_REQUEST"]

/-- statusCodeMap: HTTP status to known error code, from generateReport. -/
def statusCodeMap : Nat → Option String
  | 401 => some "UNAUTHORIZED"
  | 403 => some "FORBIDDEN"
  | 429 => some "TOO_MANY_REQUESTS"
  | 400 => some "BAD_REQUEST"
  | _ => none

/-- The generic fallback message built from the HTTP status. -/
def apiFailedMessage (status : Nat) : String :=
  "API request failed with status " ++ toString status

/-- tRPC branch of the error normalization: use the friendly message when
`error.data.code` is truthy and known, else the raw envelope message,
falling back to the generic status message when that is empty. -/
def normalizeTrpcError (status : Nat) (e : TRPCErrorBody) : String :=
  let errorCode : Option String := e.data.map TRPCData.code
  let friendly : Option String :=
    match errorCode with
    | some code => if code = "" then none else ERROR_MESSAGES code
    | none => none
  match friendly with
  | some m => m
  | none => if e.message = "" then apiFailedMessage status else e.message

/-- `issues.map((i) => i.message).join(', ')` from the source. -/
def joinIssues (issues : List FlatIssue) : String :=
  String.intercalate ", " (issues.map FlatIssue.message)

/-- Raw-message part of the flat branch: the body message (generic
fallback when falsy), with the joined issue messages appended when the
joined string is truthy (non-empty). -/
def normalizeFlatRaw (status : Nat) (e : FlatErrorBody) : String :=
  let errorMessage := if e.message = "" then apiFailedMessage status else e.message
  match e.issues with
  | none => errorMessage
  | some issues =>
    let details := joinIssues issues
    if details = "" then errorMessage else errorMessage ++ ": " ++ details

/-- Flat branch of the error normalization: first consult the HTTP
status map and the friendly table, else fall back to the raw message. -/
def normalizeFlatError (status : Nat) (e : FlatErrorBody) : String :=
  match statusCodeMap status with
  | some mapped =>
    match ERROR_MESSAGES mapped with
    | some m => m
    | none => normalizeFlatRaw status e
  | none => normalizeFlatRaw status e

/-- Full error normalization of a non-2xx JSON body. -/
def normalizeErrorBody (status : Nat) (b : ErrorBody) : String :=
  match b with
  | .trpc e => normalizeTrpcError status e
  | .flat e => normalizeFlatError status e

/-! ## Client configuration -/

def API_BASE_URL : String := "https://api.coderabbit.ai/api"

def API_VERSION : String := "v1"

def API_TIMEOUT_MS : Nat := 600000

/-- Constructor argument of the client (all fields optional). -/
structure CodeRabbitClientConfig where
  apiKey : Option String := none
  baseUrl : Option String := none
  timeout : Option Nat := none
deriving DecidableEq

/-- Resolved client state after the constructor ran. -/
structure CodeRabbitClient where
  apiKey : Option String
  baseUrl : String
  timeout : Nat
deriving DecidableEq

/-- The constructor: each field is the explicit config value when given
(`??`), else the environment lookup (apiKey) or built-in default. -/
def mkClient (config : Option CodeRabbitClientConfig) (envApiKey : Option String) :
    CodeRabbitClient :=
  { apiKey :=
      match config.bind CodeRabbitClientConfig.apiKey with
      | some k => some k
      | none => envApiKey
  , baseUrl := (config.bind CodeRabbitClientConfig.baseUrl).getD API_BASE_URL
  , timeout := (config.bind CodeRabbitClientConfig.timeout).getD API_TIMEOUT_MS }

/-- isConfigured: apiKey is non-null and non-empty. -/
def CodeRabbitClient.isConfigured (c : CodeRabbitClient) : Bool :=
  match c.apiKey with
  | none => false
  | some k => decide (0 < k.length)

/-! ## Wire payload construction -/

/-- A JSON value appearing in the request body. The `null` constructor
exists only so that "no null entries are sent" is expressible; the
builder never produces it. -/
inductive PayloadValue
  | str (s : String)
  | filters (ps : List FilterConfig)
  | null
deriving DecidableEq

/-- JS truthiness of an optional string: present and non-empty. -/
def truthyOptStr : Option String → Bool
  | none => false
  | some s => s != ""

/-- The request body object, in source construction order, as an
association list. Conditional spreads (`...(x && { k: x })`) add the
key only when the value is truthy. -/
def buildRequestBody (r : ReportGenerateRequest) : List (String × PayloadValue) :=
  [ ("from", PayloadValue.str r.from_)
  , ("to", PayloadValue.str r.to_)
  , ("scheduleRange", PayloadValue.str (r.scheduleRange.getD "Dates"))
  , ("parameters", PayloadValue.filters (r.parameters.getD [])) ]
  ++ (if truthyOptStr r.prompt then [("prompt", PayloadValue.str (r.prompt.getD ""))] else [])
  ++ (if truthyOptStr r.promptTemplate then [("promptTemplate", PayloadValue.str (r.promptTemplate.getD ""))] else [])
  ++ (if truthyOptStr r.groupBy then [("groupBy", PayloadValue.str (r.groupBy.getD ""))] else [])
  ++ (if truthyOptStr r.subgroupBy then [("subgroupBy", PayloadValue.str (r.subgroupBy.getD ""))] else [])
  ++ (if truthyOptStr r.orgId then [("orgId", PayloadValue.str (r.orgId.getD ""))] else [])

/-! ## generateReport execution model

The transport (`fetch`) is modelled by its observable behavior: it
either resolves after a given number of milliseconds with an HTTP
response, rejects after a given time with a named error, or never
settles on its own.  The AbortController/setTimeout pair is modelled by
comparing the settle time with the configured timeout: when the
transport does not settle strictly before the timeout, the abort fires
and the awaited fetch rejects with an AbortError. -/

/-- Body of an HTTP response: either the success envelope
`{result:{data}}` or one of the two error shapes. -/
inductive ResponseBody
  | result (data : List ReportResult)
  | err (e : ErrorBody)
deriving DecidableEq

structure HttpResponse where
  status : Nat
  body : ResponseBody
deriving DecidableEq

/-- `response.ok` of the fetch API. -/
def responseOk (status : Nat) : Bool :=
  (200 ≤ status) && (status < 300)

/-- Observable behavior of the transport for one invocation. -/
inductive FetchBehavior
  | resolves (afterMs : Nat) (response : HttpResponse)
  | rejects (afterMs : Nat) (errName : String) (errMessage : String)
  | never
deriving DecidableEq

/-- Whether the transport settles strictly before the timeout fires. -/
def settlesWithin (fetch : FetchBehavior) (timeoutMs : Nat) : Bool :=
  match fetch with
  | .resolves t _ => t < timeoutMs
  | .rejects t _ _ => t < timeoutMs
  | .never => false

/-- The message thrown when not configured. -/
def configErrorMessage : String :=
  "CODERABBIT_API_KEY not configured. Set environment variable or pass apiKey in config."

/-- The message thrown on timeout.  The source divides by 1000 in JS
number arithmetic; every timeout considered here is a whole number of
seconds, so Nat division coincides with it. -/
def timeoutMessage (timeoutMs : Nat) : String :=
  "CodeRabbit report generation timed out after " ++ toString (timeoutMs / 1000) ++ "s"

/-- Outcome of one generateReport call: the resolved/thrown result, the
payloads handed to the transport (one entry per invocation), and
whether the AbortController fired. -/
structure GenerateOutcome where
  result : Except String (List ReportResult)
  sent : List (List (String × PayloadValue))
  aborted : Bool

/-- generateReport: configuration check, then one transport call with
the built payload, then response handling / error normalization.
An ok response whose body lacks the `{result:{data}}` envelope makes
the source read a property of undefined; the host TypeError (engine
specific text) is modelled as the message "TypeError".  A non-ok
response with a `{result:...}` body reaches the flat branch with an
undefined message and no issues, which the flat normalizer receives as
an empty message. -/
def runGenerateReport (c : CodeRabbitClient) (req : ReportGenerateRequest)
    (fetch : FetchBehavior) : GenerateOutcome :=
  if c.isConfigured then
    let payload := buildRequestBody req
    match fetch with
    | .never => ⟨.error (timeoutMessage c.timeout), [payload], true⟩
    | .resolves t resp =>
      if c.timeout ≤ t then ⟨.error (timeoutMessage c.timeout), [payload], true⟩
      else if responseOk resp.status then
        match resp.body with
        | .result data => ⟨.ok data, [payload], false⟩
        | .err _ => ⟨.error "TypeError", [payload], false⟩
      else
        match resp.body with
        | .err e => ⟨.error (normalizeErrorBody resp.status e), [payload], false⟩
        | .result _ =>
          ⟨.error (normalizeFlatError resp.status { message := "", issues := none }), [payload], false⟩
    | .rejects t name msg =>
      if c.timeout ≤ t then ⟨.error (timeoutMessage c.timeout), [payload], true⟩
      else if name = "AbortError" then ⟨.error (timeoutMessage c.timeout), [payload], false⟩
      else ⟨.error msg, [payload], false⟩
  else ⟨.error configErrorMessage, [], false⟩

/-! ## Stored reports and the LocalStorage adapter -/

/-- A persisted report record, from the StoredReport interface. -/
structure StoredReport where
  id : String
  fromDate : String
  toDate : String
  promptTemplate : Option String := none
  prompt : Option String := none
  customPrompt : Option String := none
  groupBy : Option String := none
  subgroupBy : Option String := none
  orgId : Option String := none
  parameters : Option (List FilterConfig) := none
  results : List ReportResult
  status : ReportStatus
  error : Option String := none
  createdAt : Nat
  durationMs : Option Nat := none
deriving DecidableEq

/-- The argument of create: a StoredReport without id/createdAt.
`status` is an Option so that the `data.status || 'pending'` default in
the source is expressible (a missing status falls back to pending; all
three status literals are truthy). -/
structure CreateInput where
  fromDate : String
  toDate : String
  promptTemplate : Option String := none
  prompt : Option String := none
  customPrompt : Option String := none
  groupBy : Option String := none
  subgroupBy : Option String := none
  orgId : Option String := none
  parameters : Option (List FilterConfig) := none
  results : List ReportResult
  status : Option ReportStatus := none
  error : Option String := none
  durationMs : Option Nat := none
deriving DecidableEq

/-- The identifier generated by the LocalStorage adapter from the
current time and the random suffix. -/
def mkReportId (now : Nat) (rand : String) : String :=
  "report_" ++ toString now ++ "_" ++ rand

/-- The record object built inside create. -/
def createdReport (data : CreateInput) (now : Nat) (rand : String) : StoredReport :=
  { id := mkReportId now rand
  , fromDate := data.fromDate
  , toDate := data.toDate
  , promptTemplate := data.promptTemplate
  , prompt := data.prompt
  , customPrompt := data.customPrompt
  , groupBy := data.groupBy
  , subgroupBy := data.subgroupBy
  , orgId := data.orgId
  , parameters := data.parameters
  , results := data.results
  , status := data.status.getD .pending
  , error := data.error
  , createdAt := now
  , durationMs := data.durationMs }

/-- The adapter state is the parsed content of the localStorage key: a
list of stored records. create pushes the new record at the end and
returns the generated id. -/
def LocalStorage.create (reports : List StoredReport) (data : CreateInput)
    (now : Nat) (rand : String) : String × List StoredReport :=
  (mkReportId now rand, reports ++ [createdReport data now rand])

/-- In-place mutation of the record object `find` located: replace the
first record with the given id. -/
def updateFirst (f : StoredReport → StoredReport) (id : String) :
    List StoredReport → List StoredReport
  | [] => []
  | r :: rest => if r.id == id then f r :: rest else r :: updateFirst f id rest

/-- updateSuccess: find the record (throwing when absent), set results,
status completed and durationMs, and save. -/
def LocalStorage.updateSuccess (reports : List StoredReport) (id : String)
    (results : List ReportResult) (durationMs : Nat) : Except String (List StoredReport) :=
  match reports.find? (fun r => r.id == id) with
  | none => .error ("Report not found: " ++ id)
  | some _ =>
    .ok (updateFirst
      (fun r => { r with results := results, status := .completed, durationMs := some durationMs })
      id reports)

/-- updateFailure: find the record (throwing when absent), set status
failed, error and durationMs, and save. -/
def LocalStorage.updateFailure (reports : List StoredReport) (id : String)
    (error : String) (durationMs : Nat) : Except String (List StoredReport) :=
  match reports.find? (fun r => r.id == id) with
  | none => .error ("Report not found: " ++ id)
  | some _ =>
    .ok (updateFirst
      (fun r => { r with status := .failed, error := some error, durationMs := some durationMs })
      id reports)

/-- get: the first record with the given id, null when absent. -/
def LocalStorage.get (reports : List StoredReport) (id : String) : Option StoredReport :=
  reports.find? (fun r => r.id == id)

/-- delete: keep every record whose id differs.  The body has no throw
path, so the result is always ok. -/
def LocalStorage.delete (reports : List StoredReport) (id : String) :
    Except String (List StoredReport) :=
  .ok (reports.filter (fun r => r.id != id))

/-! ## The orchestration hook -/

/-- A storage adapter as the hook consumes it, over an abstract state
type: each operation either returns the new state (and the id for
create) or throws a message.  A throwing operation is modelled as
leaving the state unchanged, which matches the LocalStorage adapter
(it throws before saving). -/
structure AdapterOps (σ : Type) where
  create : CreateInput → σ → Except String (String × σ)
  updateSuccess : String → List ReportResult → Nat → σ → Except String σ
  updateFailure : String → String → Nat → σ → Except String σ

/-- The LocalStorage adapter packaged for the hook; `now`/`rand` feed
the id generation and creation timestamp. -/
def localAdapterOps (now : Nat) (rand : String) : AdapterOps (List StoredReport) :=
  { create := fun data s => .ok (LocalStorage.create s data now rand)
  , updateSuccess := fun id results d s => LocalStorage.updateSuccess s id results d
  , updateFailure := fun id e d s => LocalStorage.updateFailure s id e d }

/-- The create argument the hook builds from the request: pending
status, empty results, no error/duration/customPrompt. -/
def hookCreateInput (req : ReportGenerateRequest) : CreateInput :=
  { fromDate := req.from_
  , toDate := req.to_
  , promptTemplate := req.promptTemplate
  , prompt := req.prompt
  , customPrompt := none
  , groupBy := req.groupBy
  , subgroupBy := req.subgroupBy
  , orgId := req.orgId
  , parameters := req.parameters
  , status := some .pending
  , results := []
  , error := none
  , durationMs := none }

/-- Observable outcome of one hook generateReport call.
`outcome` is ok with the resolved value (the report id, null without
storage or on failure) or error with a message that escaped the hook;
`errorState` is the final value of the error state variable;
the callback lists record each invocation in order;
`isGenerating` is the flag value after the finally block ran. -/
structure HookOutcome (σ : Type) where
  state : σ
  outcome : Except String (Option String)
  errorState : Option String
  onSuccessCalls : List (Option String)
  onErrorCalls : List String
  isGenerating : Bool

/-- The hook generateReport control flow.  `clientResult` is the
observable behavior of the client call (resolved results or thrown
message); `t0` is the recorded start time, `t1` the time at which the
client call settled, so the computed duration is `t1 - t0`.

The try block covers create, the client call, updateSuccess and the
success callback; the catch block records the message, calls
updateFailure when a record was created, then the error callback.  An
exception thrown by updateFailure inside the catch block is not caught
and escapes (the finally block still resets the flag). -/
def runHookGenerateReport {σ : Type} (storage : Option (AdapterOps σ)) (s0 : σ)
    (req : ReportGenerateRequest) (clientResult : Except String (List ReportResult))
    (t0 t1 : Nat) : HookOutcome σ :=
  match storage with
  | none =>
    match clientResult with
    | .ok _ => ⟨s0, .ok none, none, [none], [], false⟩
    | .error e => ⟨s0, .ok none, some e, [], [e], false⟩
  | some ops =>
    match ops.create (hookCreateInput req) s0 with
    | .error e => ⟨s0, .ok none, some e, [], [e], false⟩
    | .ok (id, s1) =>
      match clientResult with
      | .error e =>
        match ops.updateFailure id e (t1 - t0) s1 with
        | .error e2 => ⟨s1, .error e2, some e, [], [], false⟩
        | .ok s2 => ⟨s2, .ok none, some e, [], [e], false⟩
      | .ok results =>
        match ops.updateSuccess id results (t1 - t0) s1 with
        | .error e =>
          match ops.updateFailure id e (t1 - t0) s1 with
          | .error e2 => ⟨s1, .error e2, some e, [], [], false⟩
          | .ok s2 => ⟨s2, .ok none, some e, [], [e], false⟩
        | .ok s2 => ⟨s2, .ok (some id), none, [some id], [], false⟩

/-! ## Record invariant (spec section 3) -/

/-- The spec invariant on one stored record: once status leaves
pending, exactly one of "results non-empty" / "error non-null" holds,
and durationMs is null iff status is pending. -/
def reportInvariant (r : StoredReport) : Prop :=
  (r.status ≠ .pending →
    ((r.results ≠ [] ∧ r.error = none) ∨ (r.results = [] ∧ r.error ≠ none)))
  ∧ (r.durationMs = none ↔ r.status = .pending)

instance (r : StoredReport) : Decidable (reportInvariant r) := by
  unfold reportInvariant; infer_instance

/-! ## Helper lemmas -/

theorem find?_updateFirst (f : StoredReport → StoredReport) (id : String)
    (hid : ∀ r, (f r).id = r.id) (s : List StoredReport) :
    (updateFirst f id s).find? (fun r => r.id == id) =
      (s.find? (fun r => r.id == id)).map f := by
  induction s with
  | nil => rfl
  | cons r rest ih =>
    cases hb : (r.id == id) with
    | true => simp [updateFirst, hb, List.find?_cons, hid r]
    | false => simp [updateFirst, hb, List.find?_cons, ih]

theorem get_create_fresh (s0 : List StoredReport) (data : CreateInput)
    (now : Nat) (rand : String)
    (hfresh : ∀ r ∈ s0, r.id ≠ mkReportId now rand) :
    LocalStorage.get (LocalStorage.create s0 data now rand).2 (mkReportId now rand)
      = some (createdReport data now rand) := by
  unfold LocalStorage.get LocalStorage.create
  have h0 : s0.find? (fun r => r.id == mkReportId now rand) = none :=
    List.find?_eq_none.mpr (by intro x hx; simpa using hfresh x hx)
  rw [List.find?_append, h0]
  simp [createdReport]

theorem updateSuccess_found (s : List StoredReport) (id : String)
    (rs : List ReportResult) (d : Nat) (r : StoredReport)
    (h : LocalStorage.get s id = some r) :
    LocalStorage.updateSuccess s id rs d =
      .ok (updateFirst (fun x => { x with results := rs, status := .completed, durationMs := some d }) id s)
    ∧ LocalStorage.get
        (updateFirst (fun x => { x with results := rs, status := .completed, durationMs := some d }) id s) id
      = some { r with results := rs, status := .completed, durationMs := some d } := by
  unfold LocalStorage.get at h
  constructor
  · unfold LocalStorage.updateSuccess
    rw [h]
  · unfold LocalStorage.get
    rw [find?_updateFirst
          (fun x => { x with results := rs, status := ReportStatus.completed, durationMs := some d })
          id (fun x => rfl) s, h]
    rfl

theorem updateFailure_found (s : List StoredReport) (id e : String) (d : Nat) (r : StoredReport)
    (h : LocalStorage.get s id = some r) :
    LocalStorage.updateFailure s id e d =
      .ok (updateFirst (fun x => { x with status := .failed, error := some e, durationMs := some d }) id s)
    ∧ LocalStorage.get
        (updateFirst (fun x => { x with status := .failed, error := some e, durationMs := some d }) id s) id
      = some { r with status := .failed, error := some e, durationMs := some d } := by
  unfold LocalStorage.get at h
  constructor
  · unfold LocalStorage.updateFailure
    rw [h]
  · unfold LocalStorage.get
    rw [find?_updateFirst
          (fun x => { x with status := ReportStatus.failed, error := some e, durationMs := some d })
          id (fun x => rfl) s, h]
    rfl

theorem updateSuccess_absent (s : List StoredReport) (id : String)
    (rs : List ReportResult) (d : Nat) (h : LocalStorage.get s id = none) :
    LocalStorage.updateSuccess s id rs d = .error ("Report not found: " ++ id) := by
  unfold LocalStorage.get at h
  unfold LocalStorage.updateSuccess
  rw [h]

theorem updateFailure_absent (s : List StoredReport) (id e : String) (d : Nat)
    (h : LocalStorage.get s id = none) :
    LocalStorage.updateFailure s id e d = .error ("Report not found: " ++ id) := by
  unfold LocalStorage.get at h
  unfold LocalStorage.updateFailure
  rw [h]

theorem get_delete (s : List StoredReport) (id : String) :
    LocalStorage.get (s.filter (fun r => r.id != id)) id = none := by
  unfold LocalStorage.get
  refine List.find?_eq_none.mpr ?_
  intro x hx
  have := List.of_mem_filter hx
  simpa using this

theorem ERROR_MESSAGES_none_of_not_known (s : String) (h : s ∉ knownCodes) :
    ERROR_MESSAGES s = none := by
  unfold ERROR_MESSAGES
  split <;> simp_all [knownCodes]

theorem ERROR_MESSAGES_isSome_iff (s : String) :
    (ERROR_MESSAGES s).isSome ↔ s ∈ knownCodes := by
  constructor
  · intro h
    by_contra hmem
    rw [ERROR_MESSAGES_none_of_not_known s hmem] at h
    simp at h
  · intro hmem
    rcases (by simpa [knownCodes] using hmem : s = "UNAUTHORIZED" ∨ s = "FORBIDDEN"
        ∨ s = "TOO_MANY_REQUESTS" ∨ s = "BAD_REQUEST") with rfl | rfl | rfl | rfl <;> rfl

/-! ## Claims about the storage adapter (C3, C4, C5) -/

/-- C3 (counterexample): the claimed state machine does not hold — a
record driven to the terminal status failed by updateFailure is moved
to completed by a subsequent updateSuccess, so updateSuccess applied to
a failed record does change it to completed. -/
theorem terminal_state_escape_counterexample :
    (LocalStorage.updateFailure
        (LocalStorage.create [] { fromDate := "a", toDate := "b", results := [] } 1 "x").2
        "report_1_x" "boom" 5 |>.map
          (fun s2 => ((LocalStorage.get s2 "report_1_x").map StoredReport.status,
            LocalStorage.updateSuccess s2 "report_1_x" [{ group := "g", report := "r" }] 7 |>.map
              (fun s3 => (LocalStorage.get s3 "report_1_x").map StoredReport.status))))
      = .ok (some .failed, .ok (some .completed)) := by rfl

/-- C3 (amended): the adapter enforces no state machine.  updateSuccess
sets any existing record's status to completed and updateFailure sets
it to failed, regardless of the current status; both throw on an absent
id; create stamps the caller-supplied status, defaulting to pending
only when the caller passes none. -/
theorem storage_status_transitions (s : List StoredReport) (id : String)
    (rs : List ReportResult) (dm : Nat) (e : String)
    (data : CreateInput) (now : Nat) (rand : String) :
    ((∃ r, LocalStorage.get s id = some r) →
      ∃ s', LocalStorage.updateSuccess s id rs dm = .ok s' ∧
        (LocalStorage.get s' id).map StoredReport.status = some .completed)
    ∧ ((∃ r, LocalStorage.get s id = some r) →
      ∃ s', LocalStorage.updateFailure s id e dm = .ok s' ∧
        (LocalStorage.get s' id).map StoredReport.status = some .failed)
    ∧ (LocalStorage.get s id = none →
        LocalStorage.updateSuccess s id rs dm = .error ("Report not found: " ++ id)
        ∧ LocalStorage.updateFailure s id e dm = .error ("Report not found: " ++ id))
    ∧ (createdReport data now rand).status = data.status.getD .pending := by
  refine ⟨?_, ?_, ?_, rfl⟩
  · rintro ⟨r, hr⟩
    obtain ⟨h1, h2⟩ := updateSuccess_found s id rs dm r hr
    exact ⟨_, h1, by rw [h2]; rfl⟩
  · rintro ⟨r, hr⟩
    obtain ⟨h1, h2⟩ := updateFailure_found s id e dm r hr
    exact ⟨_, h1, by rw [h2]; rfl⟩
  · intro h
    exact ⟨updateSuccess_absent s id rs dm h, updateFailure_absent s id e dm h⟩

/-- Witness for the amended C3 theorem at a concrete one-record state. -/
theorem storage_status_transitions_witness :
    ∃ s', LocalStorage.updateSuccess
        (LocalStorage.create [] { fromDate := "a", toDate := "b", results := [] } 1 "x").2
        (mkReportId 1 "x") [{ group := "g", report := "r" }] 7 = .ok s'
      ∧ (LocalStorage.get s' (mkReportId 1 "x")).map StoredReport.status = some .completed :=
  (storage_status_transitions
      (LocalStorage.create [] { fromDate := "a", toDate := "b", results := [] } 1 "x").2
      (mkReportId 1 "x") [{ group := "g", report := "r" }] 7 "e"
      { fromDate := "a", toDate := "b", results := [] } 1 "x").1
    ⟨createdReport { fromDate := "a", toDate := "b", results := [] } 1 "x", rfl⟩

/-- C4 (counterexample): a record reachable by create (with the hook's
pending input) followed by updateFailure and then updateSuccess with
non-empty results ends completed with BOTH non-empty results and a
non-null error, violating the exactly-one invariant. -/
theorem invariant_violation_counterexample :
    ((LocalStorage.updateFailure
        (LocalStorage.create [] (hookCreateInput { from_ := "a", to_ := "b" }) 1 "x").2
        "report_1_x" "boom" 5).bind
      (fun s2 => LocalStorage.updateSuccess s2 "report_1_x" [{ group := "g", report := "r" }] 7) |>.map
      (fun s3 => (LocalStorage.get s3 "report_1_x").map
         (fun r => (r.status, r.results, r.error, decide (reportInvariant r)))))
      = .ok (some (.completed, [{ group := "g", report := "r" }], some "boom", false)) := by rfl

/-- C4 (amended): the invariant holds for records created with a
pending (or defaulted) status, empty results, no error and no duration,
followed by at most one update, where updateSuccess is given non-empty
results; longer update sequences and other create inputs can violate
it. -/
theorem storage_invariant_single_update (s0 : List StoredReport) (data : CreateInput)
    (now : Nat) (rand : String)
    (hfresh : ∀ r ∈ s0, r.id ≠ mkReportId now rand)
    (hst : data.status = none ∨ data.status = some .pending)
    (hres : data.results = []) (herr : data.error = none) (hdur : data.durationMs = none) :
    (∀ r, LocalStorage.get (LocalStorage.create s0 data now rand).2 (mkReportId now rand) = some r →
        r.status = .pending ∧ reportInvariant r)
    ∧ (∀ rs d s2, rs ≠ [] →
        LocalStorage.updateSuccess (LocalStorage.create s0 data now rand).2 (mkReportId now rand) rs d = .ok s2 →
        ∀ r, LocalStorage.get s2 (mkReportId now rand) = some r → reportInvariant r)
    ∧ (∀ e d s2,
        LocalStorage.updateFailure (LocalStorage.create s0 data now rand).2 (mkReportId now rand) e d = .ok s2 →
        ∀ r, LocalStorage.get s2 (mkReportId now rand) = some r → reportInvariant r) := by
  have hget := get_create_fresh s0 data now rand hfresh
  have hstatus : (createdReport data now rand).status = .pending := by
    rcases hst with h | h <;> simp [createdReport, h]
  refine ⟨?_, ?_, ?_⟩
  · intro r hr
    rw [hget] at hr
    obtain rfl := Option.some.inj hr
    refine ⟨hstatus, ?_, ?_⟩
    · intro hc; exact absurd hstatus hc
    · constructor
      · intro _; exact hstatus
      · intro _; simp [createdReport, hdur]
  · intro rs d s2 hrs hupd r hr
    obtain ⟨h1, h2⟩ := updateSuccess_found _ _ rs d _ hget
    rw [h1] at hupd
    obtain rfl := Except.ok.inj hupd
    rw [h2] at hr
    obtain rfl := Option.some.inj hr
    refine ⟨?_, ?_⟩
    · intro _
      exact Or.inl ⟨hrs, by simp [createdReport, herr]⟩
    · constructor
      · intro hnone; exact absurd hnone (by simp)
      · intro hp; exact absurd hp (by simp)
  · intro e d s2 hupd r hr
    obtain ⟨h1, h2⟩ := updateFailure_found _ _ e d _ hget
    rw [h1] at hupd
    obtain rfl := Except.ok.inj hupd
    rw [h2] at hr
    obtain rfl := Option.some.inj hr
    refine ⟨?_, ?_⟩
    · intro _
      exact Or.inr ⟨by simp [createdReport, hres], by simp⟩
    · constructor
      · intro hnone; exact absurd hnone (by simp)
      · intro hp; exact absurd hp (by simp)

/-- Witness for the amended C4 theorem: the record created by the hook
input satisfies the invariant. -/
theorem storage_invariant_single_update_witness :
    reportInvariant (createdReport (hookCreateInput { from_ := "a", to_ := "b" }) 1 "x") :=
  ((storage_invariant_single_update [] (hookCreateInput { from_ := "a", to_ := "b" }) 1 "x"
      (by simp) (Or.inr rfl) rfl rfl rfl).1
    (createdReport (hookCreateInput { from_ := "a", to_ := "b" }) 1 "x") rfl).2

/-- C5 (counterexample): create is not restricted to pending — with a
caller-supplied completed status, create followed by get returns a
completed record, not a pending one. -/
theorem create_status_passthrough_counterexample :
    (LocalStorage.get
        (LocalStorage.create [] { fromDate := "a", toDate := "b", results := [], status := some .completed } 1 "x").2
        "report_1_x").map StoredReport.status = some .completed
    ∧ ReportStatus.completed ≠ ReportStatus.pending := by
  exact ⟨rfl, by decide⟩

/-- C5 (amended): for create inputs whose status is unset or pending
and whose durationMs is unset, create then get yields a pending record
with null duration; updateSuccess with the generated id yields a
completed record carrying the given results and duration; delete
removes the record (get returns null) and a second delete of the
absent id still does not throw. -/
theorem local_adapter_lifecycle (s0 : List StoredReport) (data : CreateInput)
    (now : Nat) (rand : String)
    (hfresh : ∀ r ∈ s0, r.id ≠ mkReportId now rand)
    (hst : data.status = none ∨ data.status = some .pending)
    (hdur : data.durationMs = none) :
    (∃ r, LocalStorage.get (LocalStorage.create s0 data now rand).2 (mkReportId now rand) = some r
       ∧ r.status = .pending ∧ r.durationMs = none)
    ∧ (∀ rs d, rs ≠ [] →
        ∃ s2, LocalStorage.updateSuccess (LocalStorage.create s0 data now rand).2 (mkReportId now rand) rs d = .ok s2
          ∧ ∃ r, LocalStorage.get s2 (mkReportId now rand) = some r
             ∧ r.status = .completed ∧ r.results = rs ∧ r.durationMs = some d)
    ∧ (∀ s : List StoredReport, ∃ s', LocalStorage.delete s (mkReportId now rand) = .ok s'
        ∧ LocalStorage.get s' (mkReportId now rand) = none
        ∧ ∃ s'', LocalStorage.delete s' (mkReportId now rand) = .ok s'') := by
  have hget := get_create_fresh s0 data now rand hfresh
  have hstatus : (createdReport data now rand).status = .pending := by
    rcases hst with h | h <;> simp [createdReport, h]
  refine ⟨⟨_, hget, hstatus, by simp [createdReport, hdur]⟩, ?_, ?_⟩
  · intro rs d hrs
    obtain ⟨h1, h2⟩ := updateSuccess_found _ _ rs d _ hget
    exact ⟨_, h1, _, h2, rfl, rfl, rfl⟩
  · intro s
    exact ⟨_, rfl, get_delete s _, _, rfl⟩

/-- Witness for the amended C5 theorem at the hook's create input. -/
theorem local_adapter_lifecycle_witness :
    (∃ r, LocalStorage.get
        (LocalStorage.create [] (hookCreateInput { from_ := "a", to_ := "b" }) 1 "x").2
        (mkReportId 1 "x") = some r ∧ r.status = .pending ∧ r.durationMs = none)
    ∧ (∃ s2, LocalStorage.updateSuccess
          (LocalStorage.create [] (hookCreateInput { from_ := "a", to_ := "b" }) 1 "x").2
          (mkReportId 1 "x") [{ group := "g", report := "r" }] 1200 = .ok s2
        ∧ ∃ r, LocalStorage.get s2 (mkReportId 1 "x") = some r
           ∧ r.status = .completed ∧ r.results = [{ group := "g", report := "r" }]
           ∧ r.durationMs = some 1200) :=
  ⟨(local_adapter_lifecycle [] (hookCreateInput { from_ := "a", to_ := "b" }) 1 "x"
      (by simp) (Or.inr rfl) rfl).1,
   (local_adapter_lifecycle [] (hookCreateInput { from_ := "a", to_ := "b" }) 1 "x"
      (by simp) (Or.inr rfl) rfl).2.1 [{ group := "g", report := "r" }] 1200 (by simp)⟩

/-! ## Claims about the client (C1, C2, C6, C7, C8) -/

theorem buildRequestBody_keys (r : ReportGenerateRequest) (k : String) :
    (k ∈ (buildRequestBody r).map Prod.fst) ↔
      (k = "from" ∨ k = "to" ∨ k = "scheduleRange" ∨ k = "parameters"
       ∨ (k = "prompt" ∧ truthyOptStr r.prompt = true)
       ∨ (k = "promptTemplate" ∧ truthyOptStr r.promptTemplate = true)
       ∨ (k = "groupBy" ∧ truthyOptStr r.groupBy = true)
       ∨ (k = "subgroupBy" ∧ truthyOptStr r.subgroupBy = true)
       ∨ (k = "orgId" ∧ truthyOptStr r.orgId = true)) := by
  unfold buildRequestBody
  cases h1 : truthyOptStr r.prompt <;> cases h2 : truthyOptStr r.promptTemplate <;>
    cases h3 : truthyOptStr r.groupBy <;> cases h4 : truthyOptStr r.subgroupBy <;>
    cases h5 : truthyOptStr r.orgId <;> simp

/-- C6 (counterexample): the claim that no field absent from the
request appears in the payload is false — a request without
`parameters` still yields a payload containing the `parameters` key
(defaulted to the empty list). -/
theorem payload_absent_field_counterexample :
    ({ from_ := "2024-01-01", to_ := "2024-01-31" } : ReportGenerateRequest).parameters = none
    ∧ "parameters" ∈ (buildRequestBody { from_ := "2024-01-01", to_ := "2024-01-31" }).map Prod.fst := by
  constructor
  · rfl
  · simp [buildRequestBody, truthyOptStr]

/-- C6 (amended): the payload always contains from/to plus
scheduleRange (defaulted to Dates) and parameters (defaulted to []);
each of the five remaining optional fields is omitted entirely when
unset, and no null value is ever sent. -/
theorem payload_field_omission (r : ReportGenerateRequest) :
    (r.prompt = none → "prompt" ∉ (buildRequestBody r).map Prod.fst)
    ∧ (r.promptTemplate = none → "promptTemplate" ∉ (buildRequestBody r).map Prod.fst)
    ∧ (r.groupBy = none → "groupBy" ∉ (buildRequestBody r).map Prod.fst)
    ∧ (r.subgroupBy = none → "subgroupBy" ∉ (buildRequestBody r).map Prod.fst)
    ∧ (r.orgId = none → "orgId" ∉ (buildRequestBody r).map Prod.fst)
    ∧ (r.scheduleRange = none → ("scheduleRange", PayloadValue.str "Dates") ∈ buildRequestBody r)
    ∧ (("parameters", PayloadValue.filters (r.parameters.getD [])) ∈ buildRequestBody r)
    ∧ (∀ kv ∈ buildRequestBody r, kv.2 ≠ PayloadValue.null) := by
  refine ⟨?_, ?_, ?_, ?_, ?_, ?_, ?_, ?_⟩
  · intro h; rw [buildRequestBody_keys]; simp [truthyOptStr, h]
  · intro h; rw [buildRequestBody_keys]; simp [truthyOptStr, h]
  · intro h; rw [buildRequestBody_keys]; simp [truthyOptStr, h]
  · intro h; rw [buildRequestBody_keys]; simp [truthyOptStr, h]
  · intro h; rw [buildRequestBody_keys]; simp [truthyOptStr, h]
  · intro h; simp [buildRequestBody, h]
  · simp [buildRequestBody]
  · intro kv hkv
    have hif : ∀ (b : Bool) (x : String × PayloadValue), kv ∈ (if b then [x] else []) → kv = x := by
      intro b x h
      cases b
      · simp at h
      · simpa using h
    unfold buildRequestBody at hkv
    simp only [List.mem_append] at hkv
    rcases hkv with ((((hb | hp) | hpt) | hg) | hsg) | ho
    · simp only [List.mem_cons, List.not_mem_nil, or_false] at hb
      rcases hb with h | h | h | h <;> subst h <;> simp
    · rw [hif _ _ hp]; simp
    · rw [hif _ _ hpt]; simp
    · rw [hif _ _ hg]; simp
    · rw [hif _ _ hsg]; simp
    · rw [hif _ _ ho]; simp

/-- Witness for the amended C6 theorem: a request with no optional
fields omits the prompt key. -/
theorem payload_field_omission_witness :
    "prompt" ∉ (buildRequestBody { from_ := "2024-01-01", to_ := "2024-01-31" }).map Prod.fst :=
  (payload_field_omission { from_ := "2024-01-01", to_ := "2024-01-31" }).1 rfl

/-- C1 (counterexample): in the flat branch with an unmapped status the
surfaced message is not always the body's raw message — an empty raw
message is replaced by the generic status message. -/
theorem flat_raw_message_counterexample :
    (runGenerateReport { apiKey := some "k", baseUrl := API_BASE_URL, timeout := API_TIMEOUT_MS }
        { from_ := "2024-01-01", to_ := "2024-01-31" }
        (.resolves 0 { status := 500, body := .err (.flat { message := "", issues := none }) })).result
      = .error "API request failed with status 500"
    ∧ "API request failed with status 500" ≠ "" := by
  constructor
  · rfl
  · simp

/-- C1 (amended): for a non-2xx response with a flat error body, when
the status maps to a known code with a friendly-table entry, that
friendly string is surfaced and the body is ignored; otherwise the raw
body message is surfaced (replaced by the generic
request-failed-with-status-N message when it is empty), with the
comma-joined issues appended after a colon exactly when the joined
string is non-empty. -/
theorem flat_error_message_rules (c : CodeRabbitClient) (req : ReportGenerateRequest)
    (t status : Nat) (e : FlatErrorBody)
    (hconf : c.isConfigured = true) (ht : t < c.timeout)
    (hnot2xx : responseOk status = false) :
    (∀ code friendly, statusCodeMap status = some code → ERROR_MESSAGES code = some friendly →
      (runGenerateReport c req (.resolves t { status := status, body := .err (.flat e) })).result
        = .error friendly)
    ∧ (statusCodeMap status = none →
      (runGenerateReport c req (.resolves t { status := status, body := .err (.flat e) })).result
        = .error (normalizeFlatRaw status e))
    ∧ normalizeFlatRaw status e =
        (let raw := if e.message = "" then "API request failed with status " ++ toString status
                    else e.message
         match e.issues with
         | none => raw
         | some issues =>
           let joined := String.intercalate ", " (issues.map FlatIssue.message)
           if joined = "" then raw else raw ++ ": " ++ joined) := by
  have hnt : ¬ (c.timeout ≤ t) := not_le.mpr ht
  refine ⟨?_, ?_, rfl⟩
  · intro code friendly hcode hfriendly
    simp [runGenerateReport, hconf, hnt, hnot2xx, normalizeErrorBody, normalizeFlatError,
      hcode, hfriendly]
  · intro hcode
    simp [runGenerateReport, hconf, hnt, hnot2xx, normalizeErrorBody, normalizeFlatError, hcode]

/-- Witness for the amended C1 theorem: HTTP 400 surfaces the friendly
BAD_REQUEST string even though the body carries a message and issues. -/
theorem flat_error_message_rules_witness :
    (runGenerateReport { apiKey := some "k", baseUrl := API_BASE_URL, timeout := API_TIMEOUT_MS }
        { from_ := "2024-01-01", to_ := "2024-01-31" }
        (.resolves 0 { status := 400, body := .err (.flat
          { message := "bad", issues := some [{ message := "a" }, { message := "b" }] }) })).result
      = .error "Invalid request. Please check your report parameters." :=
  (flat_error_message_rules
      { apiKey := some "k", baseUrl := API_BASE_URL, timeout := API_TIMEOUT_MS }
      { from_ := "2024-01-01", to_ := "2024-01-31" } 0 400
      { message := "bad", issues := some [{ message := "a" }, { message := "b" }] }
      rfl (by decide) rfl).1 "BAD_REQUEST" _ rfl rfl

/-- C2 (confirmed): for a non-2xx response with a tRPC error envelope,
a known nested data code surfaces its friendly string regardless of
HTTP status and envelope message; otherwise the envelope's raw message
is surfaced, with the generic request-failed-with-status-N fallback
when it is empty.  The last conjunct identifies the known codes with
the domain of the friendly table. -/
theorem trpc_error_message_rules (c : CodeRabbitClient) (req : ReportGenerateRequest)
    (t status : Nat) (e : TRPCErrorBody)
    (hconf : c.isConfigured = true) (ht : t < c.timeout)
    (hnot2xx : responseOk status = false) :
    (∀ d friendly, e.data = some d → ERROR_MESSAGES d.code = some friendly →
      (runGenerateReport c req (.resolves t { status := status, body := .err (.trpc e) })).result
        = .error friendly)
    ∧ ((∀ d, e.data = some d → d.code ∉ knownCodes) →
      (runGenerateReport c req (.resolves t { status := status, body := .err (.trpc e) })).result
        = .error (if e.message = "" then apiFailedMessage status else e.message))
    ∧ (∀ s : String, (ERROR_MESSAGES s).isSome ↔ s ∈ knownCodes) := by
  have hnt : ¬ (c.timeout ≤ t) := not_le.mpr ht
  refine ⟨?_, ?_, ERROR_MESSAGES_isSome_iff⟩
  · intro d friendly hd hfriendly
    have hne : ¬ (d.code = "") := by
      intro h
      rw [h, show ERROR_MESSAGES "" = none from rfl] at hfriendly
      exact Option.noConfusion hfriendly
    simp [runGenerateReport, hconf, hnt, hnot2xx, normalizeErrorBody, normalizeTrpcError,
      hd, hne, hfriendly]
  · intro hunknown
    cases hd : e.data with
    | none =>
      simp [runGenerateReport, hconf, hnt, hnot2xx, normalizeErrorBody, normalizeTrpcError, hd]
    | some d =>
      have hnone : ERROR_MESSAGES d.code = none :=
        ERROR_MESSAGES_none_of_not_known _ (hunknown d hd)
      by_cases hc : d.code = ""
      · simp [runGenerateReport, hconf, hnt, hnot2xx, normalizeErrorBody, normalizeTrpcError,
          hd, hc]
      · simp [runGenerateReport, hconf, hnt, hnot2xx, normalizeErrorBody, normalizeTrpcError,
          hd, hc, hnone]

/-- Witness for the C2 theorem: an UNAUTHORIZED data code on HTTP 500
surfaces the friendly UNAUTHORIZED string, not the envelope message. -/
theorem trpc_error_message_rules_witness :
    (runGenerateReport { apiKey := some "k", baseUrl := API_BASE_URL, timeout := API_TIMEOUT_MS }
        { from_ := "2024-01-01", to_ := "2024-01-31" }
        (.resolves 0 { status := 500, body := .err (.trpc
          { message := "x", code := 0,
            data := some { code := "UNAUTHORIZED", httpStatus := 401, path := "report.generate" } }) })).result
      = .error "CodeRabbit Pro subscription required. Please upgrade your plan at https://coderabbit.ai to use the Reports API." :=
  (trpc_error_message_rules
      { apiKey := some "k", baseUrl := API_BASE_URL, timeout := API_TIMEOUT_MS }
      { from_ := "2024-01-01", to_ := "2024-01-31" } 0 500
      { message := "x", code := 0,
        data := some { code := "UNAUTHORIZED", httpStatus := 401, path := "report.generate" } }
      rfl (by decide) rfl).1
    { code := "UNAUTHORIZED", httpStatus := 401, path := "report.generate" } _ rfl rfl

/-- C7 (confirmed): with a null or empty resolved apiKey the client is
not configured, generateReport fails with the configuration error, and
the transport is never invoked. -/
theorem unconfigured_no_network (c : CodeRabbitClient) (req : ReportGenerateRequest)
    (fetch : FetchBehavior) (h : c.apiKey = none ∨ c.apiKey = some "") :
    c.isConfigured = false
    ∧ (runGenerateReport c req fetch).result = .error configErrorMessage
    ∧ (runGenerateReport c req fetch).sent = [] := by
  have hc : c.isConfigured = false := by
    rcases h with h | h <;> simp [CodeRabbitClient.isConfigured, h]
  exact ⟨hc, by simp [runGenerateReport, hc], by simp [runGenerateReport, hc]⟩

/-- Witness for the C7 theorem with an empty-string key. -/
theorem unconfigured_no_network_witness :
    CodeRabbitClient.isConfigured { apiKey := some "", baseUrl := API_BASE_URL, timeout := API_TIMEOUT_MS } = false
    ∧ (runGenerateReport { apiKey := some "", baseUrl := API_BASE_URL, timeout := API_TIMEOUT_MS }
        { from_ := "a", to_ := "b" } .never).result = .error configErrorMessage
    ∧ (runGenerateReport { apiKey := some "", baseUrl := API_BASE_URL, timeout := API_TIMEOUT_MS }
        { from_ := "a", to_ := "b" } .never).sent = [] :=
  unconfigured_no_network
    { apiKey := some "", baseUrl := API_BASE_URL, timeout := API_TIMEOUT_MS }
    { from_ := "a", to_ := "b" } .never (Or.inr rfl)

/-- C8 (confirmed): the default timeout is 600000 ms (both as the
constant and through the constructor); a configured client whose
transport does not settle within the timeout aborts the request and
fails with the timeout message carrying the configured value; the
transport is invoked at most once (no retry); and the abort-driven
timeout failure is the only path on which the controller fires. -/
theorem timeout_enforcement :
    API_TIMEOUT_MS = 600000
    ∧ (∀ envApiKey, (mkClient none envApiKey).timeout = 600000)
    ∧ (∀ cfg envApiKey, cfg.timeout = none → (mkClient (some cfg) envApiKey).timeout = 600000)
    ∧ (∀ (c : CodeRabbitClient) (req : ReportGenerateRequest) (fetch : FetchBehavior),
        c.isConfigured = true → settlesWithin fetch c.timeout = false →
        runGenerateReport c req fetch =
          ⟨.error (timeoutMessage c.timeout), [buildRequestBody req], true⟩)
    ∧ (∀ (c : CodeRabbitClient) (req : ReportGenerateRequest) (fetch : FetchBehavior),
        (runGenerateReport c req fetch).sent.length ≤ 1)
    ∧ (∀ (c : CodeRabbitClient) (req : ReportGenerateRequest) (fetch : FetchBehavior),
        (runGenerateReport c req fetch).aborted = true →
        (runGenerateReport c req fetch).result = .error (timeoutMessage c.timeout)) := by
  refine ⟨rfl, fun _ => rfl, ?_, ?_, ?_, ?_⟩
  · intro cfg envApiKey h
    simp [mkClient, h, API_TIMEOUT_MS]
  · intro c req fetch hconf hslow
    cases fetch with
    | never => simp [runGenerateReport, hconf]
    | resolves t resp =>
      have hto : c.timeout ≤ t := Nat.le_of_not_lt (by simpa [settlesWithin] using hslow)
      simp [runGenerateReport, hconf, hto]
    | rejects t n m =>
      have hto : c.timeout ≤ t := Nat.le_of_not_lt (by simpa [settlesWithin] using hslow)
      simp [runGenerateReport, hconf, hto]
  · intro c req fetch
    by_cases hconf : c.isConfigured = true
    · cases fetch with
      | never => simp [runGenerateReport, hconf]
      | resolves t resp =>
        by_cases hto : c.timeout ≤ t
        · simp [runGenerateReport, hconf, hto]
        · by_cases hok : responseOk resp.status = true
          · cases hb : resp.body <;> simp [runGenerateReport, hconf, hto, hok, hb]
          · cases hb : resp.body <;> simp [runGenerateReport, hconf, hto, hok, hb]
      | rejects t n m =>
        by_cases hto : c.timeout ≤ t
        · simp [runGenerateReport, hconf, hto]
        · by_cases hn : n = "AbortError" <;> simp [runGenerateReport, hconf, hto, hn]
    · simp [runGenerateReport, hconf]
  · intro c req fetch habort
    by_cases hconf : c.isConfigured = true
    · cases fetch with
      | never => simp [runGenerateReport, hconf]
      | resolves t resp =>
        by_cases hto : c.timeout ≤ t
        · simp [runGenerateReport, hconf, hto]
        · by_cases hok : responseOk resp.status = true
          · cases hb : resp.body <;>
              simp [runGenerateReport, hconf, hto, hok, hb] at habort
          · cases hb : resp.body <;>
              simp [runGenerateReport, hconf, hto, hok, hb] at habort
      | rejects t n m =>
        by_cases hto : c.timeout ≤ t
        · simp [runGenerateReport, hconf, hto]
        · by_cases hn : n = "AbortError" <;>
            simp [runGenerateReport, hconf, hto, hn] at habort
    · simp [runGenerateReport, hconf] at habort

/-- Witness for the C8 theorem: a transport that never settles times
out with the default 600000 ms value and the request is aborted. -/
theorem timeout_enforcement_witness :
    runGenerateReport { apiKey := some "k", baseUrl := API_BASE_URL, timeout := API_TIMEOUT_MS }
        { from_ := "a", to_ := "b" } .never =
      ⟨.error (timeoutMessage API_TIMEOUT_MS), [buildRequestBody { from_ := "a", to_ := "b" }], true⟩ :=
  timeout_enforcement.2.2.2.1
    { apiKey := some "k", baseUrl := API_BASE_URL, timeout := API_TIMEOUT_MS }
    { from_ := "a", to_ := "b" } .never rfl rfl

/-! ## Claims about the orchestration hook (C9, C10) -/

theorem runHook_local_clientError (s0 : List StoredReport) (req : ReportGenerateRequest)
    (now t0 t1 : Nat) (rand : String) (e : String) (s2 : List StoredReport)
    (h : LocalStorage.updateFailure (LocalStorage.create s0 (hookCreateInput req) now rand).2
        (mkReportId now rand) e (t1 - t0) = .ok s2) :
    runHookGenerateReport (some (localAdapterOps now rand)) s0 req (.error e) t0 t1
      = ⟨s2, .ok none, some e, [], [e], false⟩ := by
  simp only [runHookGenerateReport, localAdapterOps, LocalStorage.create] at *
  rw [h]

/-- C9 (confirmed): with the in-memory adapter configured and a client
call failing with the message boom, the record created in the pending
step ends with status failed, error boom and durationMs equal to the
elapsed time since the recorded start, the error callback fires exactly
once with boom, the error state holds boom, and the hook resolves
(returning null). -/
theorem hook_failure_records_error (s0 : List StoredReport) (req : ReportGenerateRequest)
    (now t0 t1 : Nat) (rand : String)
    (hfresh : ∀ r ∈ s0, r.id ≠ mkReportId now rand) :
    ∃ r, LocalStorage.get
        (runHookGenerateReport (some (localAdapterOps now rand)) s0 req (.error "boom") t0 t1).state
        (mkReportId now rand) = some r
      ∧ r.status = .failed ∧ r.error = some "boom" ∧ r.durationMs = some (t1 - t0)
      ∧ (runHookGenerateReport (some (localAdapterOps now rand)) s0 req (.error "boom") t0 t1).onErrorCalls
          = ["boom"]
      ∧ (runHookGenerateReport (some (localAdapterOps now rand)) s0 req (.error "boom") t0 t1).errorState
          = some "boom"
      ∧ (runHookGenerateReport (some (localAdapterOps now rand)) s0 req (.error "boom") t0 t1).outcome
          = .ok none := by
  have hget := get_create_fresh s0 (hookCreateInput req) now rand hfresh
  obtain ⟨h1, h2⟩ := updateFailure_found _ (mkReportId now rand) "boom" (t1 - t0) _ hget
  rw [runHook_local_clientError s0 req now t0 t1 rand "boom" _ h1]
  exact ⟨_, h2, rfl, rfl, rfl, rfl, rfl, rfl⟩

/-- Witness for the C9 theorem on an empty initial store with start
time 10 and settle time 1210. -/
theorem hook_failure_records_error_witness :
    ∃ r, LocalStorage.get
        (runHookGenerateReport (some (localAdapterOps 1 "x")) []
          { from_ := "a", to_ := "b" } (.error "boom") 10 1210).state
        (mkReportId 1 "x") = some r
      ∧ r.status = .failed ∧ r.error = some "boom" ∧ r.durationMs = some (1210 - 10)
      ∧ (runHookGenerateReport (some (localAdapterOps 1 "x")) []
          { from_ := "a", to_ := "b" } (.error "boom") 10 1210).onErrorCalls = ["boom"]
      ∧ (runHookGenerateReport (some (localAdapterOps 1 "x")) []
          { from_ := "a", to_ := "b" } (.error "boom") 10 1210).errorState = some "boom"
      ∧ (runHookGenerateReport (some (localAdapterOps 1 "x")) []
          { from_ := "a", to_ := "b" } (.error "boom") 10 1210).outcome = .ok none :=
  hook_failure_records_error [] { from_ := "a", to_ := "b" } 1 10 1210 "x" (by simp)

/-- C10 (counterexample): the hook does re-throw past its boundary — a
client failure followed by a throwing updateFailure in the catch block
makes generateReport itself reject with the storage exception. -/
theorem hook_rethrow_counterexample :
    (runHookGenerateReport
        (some { create := fun _ s => .ok ("id1", s)
              , updateSuccess := fun _ _ _ s => .ok s
              , updateFailure := fun _ _ _ _ => .error "storage write failed" })
        () { from_ := "a", to_ := "b" } (.error "boom") 0 5).outcome
      = .error "storage write failed" := by rfl

/-- C10 (amended): the hook catches every exception from the client,
from create and from updateSuccess, converts it to a message and
surfaces it through the error state and the error callback (which
agree), never rejecting — provided the updateFailure call of the
recovery path does not itself throw; when updateFailure throws in the
catch block, that exception escapes the hook. -/
theorem hook_error_containment {σ : Type} (storage : Option (AdapterOps σ)) (s0 : σ)
    (req : ReportGenerateRequest) (clientResult : Except String (List ReportResult)) (t0 t1 : Nat)
    (hUF : ∀ ops, storage = some ops → ∀ id e d s, ∃ s', ops.updateFailure id e d s = .ok s') :
    (∃ v, (runHookGenerateReport storage s0 req clientResult t0 t1).outcome = .ok v)
    ∧ ((runHookGenerateReport storage s0 req clientResult t0 t1).errorState = none →
        (runHookGenerateReport storage s0 req clientResult t0 t1).onErrorCalls = [])
    ∧ (∀ m, (runHookGenerateReport storage s0 req clientResult t0 t1).errorState = some m →
        (runHookGenerateReport storage s0 req clientResult t0 t1).onErrorCalls = [m]) := by
  cases storage with
  | none =>
    cases clientResult <;> simp [runHookGenerateReport]
  | some ops =>
    cases hc : ops.create (hookCreateInput req) s0 with
    | error e => simp [runHookGenerateReport, hc]
    | ok pair =>
      obtain ⟨id, s1⟩ := pair
      cases clientResult with
      | error e =>
        obtain ⟨s2, hs2⟩ := hUF ops rfl id e (t1 - t0) s1
        simp [runHookGenerateReport, hc, hs2]
      | ok results =>
        cases hu : ops.updateSuccess id results (t1 - t0) s1 with
        | ok s2 => simp [runHookGenerateReport, hc, hu]
        | error e =>
          obtain ⟨s2, hs2⟩ := hUF ops rfl id e (t1 - t0) s1
          simp [runHookGenerateReport, hc, hu, hs2]

/-- Witness for the amended C10 theorem with a total adapter and a
failing client: the hook resolves instead of rejecting. -/
theorem hook_error_containment_witness :
    ∃ v, (runHookGenerateReport
        (some { create := fun _ s => .ok ("id1", s)
              , updateSuccess := fun _ _ _ s => .ok s
              , updateFailure := fun _ _ _ s => .ok s })
        () { from_ := "a", to_ := "b" } (.error "boom") 0 5).outcome = .ok v :=
  (hook_error_containment
    (some { create := fun _ s => .ok ("id1", s)
          , updateSuccess := fun _ _ _ s => .ok s
          , updateFailure := fun _ _ _ s => .ok s })
    () { from_ := "a", to_ := "b" } (.error "boom") 0 5
    (by intro ops h id e d s; cases Option.some.inj h; exact ⟨s, rfl⟩)).1
